import Mathlib

/-!
Verification of the two Blender utility scripts of this repository,
`crowdControl.py` and `shedScaleSkin.py`, against their specification.

The scripts are shallowly embedded: the Blender scene is a value
(a list of named objects with locations, selection flags, rigid-body
state and material slots), and each procedure of the scripts becomes a
function from scenes to scenes.  Host operators are modelled by their
documented effect on that state:

* `bpy.ops.object.select_all(action='DESELECT')` clears every selection
  flag;
* `bpy.ops.transform.translate(value=v)` adds `v` to the location of
  every selected object;
* `o.select_set(b)` sets the flag of the one object `o`;
* rigid-body add/remove/bake/copy-settings act on the active or selected
  objects as documented, and operator/lookup failures (missing
  datablocks, index errors) are modelled by `Option`.

Scalar coordinates are exact numbers: rationals where the scripts only
add vectors, reals where `mathutils.Vector.normalize` needs a square
root.  Python's `str.startswith` is modelled on character lists, since
`String.startsWith` itself does not reduce in the kernel.
-/

/-- Python `str.startswith`: the characters of `nameRoot` are a prefix of
the characters of `s`. -/
def startswith (s nameRoot : String) : Bool :=
  nameRoot.toList.isPrefixOf s.toList

/-- A `mathutils.Vector` of length 3 with exact scalar entries. -/
@[ext]
structure Vec3 (α : Type) where
  x : α
  y : α
  z : α
deriving DecidableEq, Repr

namespace Vec3

instance {α : Type} [Add α] : Add (Vec3 α) :=
  ⟨fun a b => ⟨a.x + b.x, a.y + b.y, a.z + b.z⟩⟩

instance {α : Type} [Sub α] : Sub (Vec3 α) :=
  ⟨fun a b => ⟨a.x - b.x, a.y - b.y, a.z - b.z⟩⟩

instance {α : Type} [Mul α] : SMul α (Vec3 α) :=
  ⟨fun c v => ⟨c * v.x, c * v.y, c * v.z⟩⟩

instance {α : Type} [Zero α] : Zero (Vec3 α) :=
  ⟨⟨0, 0, 0⟩⟩

@[simp] theorem add_x {α : Type} [Add α] (a b : Vec3 α) : (a + b).x = a.x + b.x := rfl

@[simp] theorem add_y {α : Type} [Add α] (a b : Vec3 α) : (a + b).y = a.y + b.y := rfl

@[simp] theorem add_z {α : Type} [Add α] (a b : Vec3 α) : (a + b).z = a.z + b.z := rfl

@[simp] theorem sub_x {α : Type} [Sub α] (a b : Vec3 α) : (a - b).x = a.x - b.x := rfl

@[simp] theorem sub_y {α : Type} [Sub α] (a b : Vec3 α) : (a - b).y = a.y - b.y := rfl

@[simp] theorem sub_z {α : Type} [Sub α] (a b : Vec3 α) : (a - b).z = a.z - b.z := rfl

@[simp] theorem smul_x {α : Type} [Mul α] (c : α) (v : Vec3 α) : (c • v).x = c * v.x := rfl

@[simp] theorem smul_y {α : Type} [Mul α] (c : α) (v : Vec3 α) : (c • v).y = c * v.y := rfl

@[simp] theorem smul_z {α : Type} [Mul α] (c : α) (v : Vec3 α) : (c • v).z = c * v.z := rfl

@[simp] theorem zero_x {α : Type} [Zero α] : (0 : Vec3 α).x = 0 := rfl

@[simp] theorem zero_y {α : Type} [Zero α] : (0 : Vec3 α).y = 0 := rfl

@[simp] theorem zero_z {α : Type} [Zero α] : (0 : Vec3 α).z = 0 := rfl

/-- Squared Euclidean length of a vector. -/
def normSq (v : Vec3 ℝ) : ℝ := v.x ^ 2 + v.y ^ 2 + v.z ^ 2

/-- Euclidean length, as computed by `mathutils.Vector.length`. -/
noncomputable def vnorm (v : Vec3 ℝ) : ℝ := Real.sqrt (normSq v)

/-- `mathutils.Vector.normalize`: scale the vector to unit length; the
zero vector is left unchanged. -/
noncomputable def normalize (v : Vec3 ℝ) : Vec3 ℝ :=
  if vnorm v = 0 then v else (1 / vnorm v) • v

end Vec3

/-! ## `crowdControl.py`

Procedures that manipulate similarly named objects en masse.  A scene
holds `bpy.data.objects` (a list), the view layer's active object
(`bpy.context.view_layer.objects.active`, by name) and the global
material collection `bpy.data.materials` (a list of names).  Each object
carries the state the script touches: name, location, selection flag,
rigid-body component (`some type` when enabled), an opaque blob of
rigid-body settings, the frames baked to keyframes, and its material
slots (a slot holds `none` when an empty slot was appended). -/

namespace crowdControl

structure Obj (α : Type) where
  name : String
  location : Vec3 α
  selected : Bool
  rigidbody : Option String
  rbSettings : String
  bakedFrames : Option (Nat × Nat × Nat)
  materials : List (Option String)
deriving DecidableEq, Repr

structure Scene (α : Type) where
  objects : List (Obj α)
  active : Option String
  materialsData : List String
deriving DecidableEq, Repr

variable {α : Type}

/-- `o.name.startswith(nameRoot)`, the predicate used by `_getObjList`. -/
def matchesRoot (nameRoot : String) (o : Obj α) : Bool :=
  startswith o.name nameRoot

/-- `_getObjList`: all objects whose names begin with `nameRoot`. -/
def getObjList (nameRoot : String) (s : Scene α) : List (Obj α) :=
  s.objects.filter (matchesRoot nameRoot)

/-- `o.select_set(b)`. -/
def select_set (b : Bool) (o : Obj α) : Obj α :=
  { o with selected := b }

/-- `select`: the loop `for o in _getObjList(nameRoot): o.select_set(True)`
sets the flag of exactly the matched objects. -/
def select (nameRoot : String) (s : Scene α) : Scene α :=
  { s with objects := s.objects.map fun o =>
      if matchesRoot nameRoot o then select_set true o else o }

/-- `deselect`: the same loop with `o.select_set(False)`. -/
def deselect (nameRoot : String) (s : Scene α) : Scene α :=
  { s with objects := s.objects.map fun o =>
      if matchesRoot nameRoot o then select_set false o else o }

/-- `bpy.ops.object.select_all(action='DESELECT')`. -/
def deselect_all (s : Scene α) : Scene α :=
  { s with objects := s.objects.map (select_set false) }

/-- `bpy.ops.transform.translate(value=v)`: translate every selected
object by `v`. -/
def translateSelected [Add α] (v : Vec3 α) (s : Scene α) : Scene α :=
  { s with objects := s.objects.map fun o =>
      if o.selected then { o with location := o.location + v } else o }

/-- `move`: deselect all (to prevent unintentionally moving something),
select the matched objects, translate the selection. -/
def move [Add α] (nameRoot : String) (v : Vec3 α) (s : Scene α) : Scene α :=
  translateSelected v (select nameRoot (deselect_all s))

/-- One iteration of the `move_towards` loop for the matched object `o`:
`o.select_set(True)`, translate the (sole) selected object by
`normalize(target - o.location) * value`, `o.select_set(False)`.  The
object is the only selected one at that point, so the scene-wide
translate moves exactly it. -/
noncomputable def move_towards_step (target : Vec3 ℝ) (value : ℝ) (o : Obj ℝ) : Obj ℝ :=
  { o with
    location := o.location + value • Vec3.normalize (target - o.location)
    selected := false }

/-- `move_towards`: deselect all, then move each matched object `value`
units towards `target` (away from it for negative `value`). -/
noncomputable def move_towards (nameRoot : String) (target : Vec3 ℝ) (value : ℝ)
    (s : Scene ℝ) : Scene ℝ :=
  let s1 := deselect_all s
  { s1 with objects := s1.objects.map fun o =>
      if matchesRoot nameRoot o then move_towards_step target value o else o }

/-- `enable_rigidbody`: for each matched object make it active and run
`bpy.ops.rigidbody.object_add(type=type)`; finally set the active object
to `None`. -/
def enable_rigidbody (nameRoot type' : String) (s : Scene α) : Scene α :=
  { s with
    objects := s.objects.map fun o =>
      if matchesRoot nameRoot o then { o with rigidbody := some type' } else o
    active := none }

/-- `disable_rigidbody`: for each matched object make it active and run
`bpy.ops.rigidbody.object_remove()`; finally set the active object to
`None`.  Removing from an object with no rigid body fails in the host
(the documented precondition), modelled as `none`. -/
def disable_rigidbody (nameRoot : String) (s : Scene α) : Option (Scene α) :=
  if (getObjList nameRoot s).all (fun o => o.rigidbody.isSome) then
    some { s with
           objects := s.objects.map fun o =>
             if matchesRoot nameRoot o then { o with rigidbody := none } else o
           active := none }
  else none

/-- `bake_rigidbody`: deselect all, select the matched objects, and run
`bpy.ops.rigidbody.bake_to_keyframes` on the selection. -/
def bake_rigidbody (nameRoot : String) (startFrame endFrame step : Nat)
    (s : Scene α) : Scene α :=
  let s1 := select nameRoot (deselect_all s)
  { s1 with objects := s1.objects.map fun o =>
      if o.selected then { o with bakedFrames := some (startFrame, endFrame, step) } else o }

/-- `copy_rigidbody_settings`: deselect all, make `bpy.data.objects[template]`
active (`none` on a failed lookup, Python's `KeyError`), select the
matched objects and run `bpy.ops.rigidbody.object_settings_copy`, which
copies the active object's settings onto the selected rigid-body
objects; it fails when the template has no rigid body (the documented
precondition). -/
def copy_rigidbody_settings (nameRoot template : String) (s : Scene α) :
    Option (Scene α) :=
  let s1 := deselect_all s
  match s1.objects.find? (fun o => o.name = template) with
  | none => none
  | some tObj =>
    if tObj.rigidbody.isSome then
      let s2 := { select nameRoot s1 with active := some template }
      some { s2 with objects := s2.objects.map fun o =>
               if o.selected && o.rigidbody.isSome then
                 { o with rbSettings := tObj.rbSettings } else o }
    else none

/-- The number of material slots of the object named `nm`
(`len(co.material_slots)` for the captured context object). -/
def slotCount (s : Scene α) (nm : String) : Nat :=
  ((s.objects.find? (fun o => o.name = nm)).map (fun o => o.materials.length)).getD 0

/-- One iteration of the `assign_material` loop: make the matched object
`oname` active, pop `len(co.material_slots)` slots from its slot list
(the `while` loop; removal is a no-op once the list is exhausted, the
operator cancels), and append the looked-up material.  `coName` is the
object that was the context object when the procedure started. -/
def assignStep (coName : String) (m : Option String) (s : Scene α) (oname : String) :
    Scene α :=
  let n := slotCount s coName
  { s with
    active := some oname
    objects := s.objects.map fun o =>
      if o.name = oname then { o with materials := o.materials.drop n ++ [m] } else o }

/-- `assign_material`: look up the material (`bpy.data.materials.get`,
`None` when missing), capture `co = bpy.context.object`, and for every
matched object delete its slots and append the material; finally set the
active object to `None`.  When there is no context object and the loop
would run, `len(co.material_slots)` raises (`co` is `None`), modelled as
`none`. -/
def assign_material (nameRoot material : String) (s : Scene α) : Option (Scene α) :=
  let m := if s.materialsData.contains material then some material else none
  let names := (getObjList nameRoot s).map (fun o => o.name)
  match s.active with
  | none =>
      if names.isEmpty then some { s with active := none } else none
  | some coName =>
      let s1 := names.foldl (assignStep coName m) s
      some { s1 with active := none }

end crowdControl

/-! ## `shedScaleSkin.py`

One-shot script: for every face of the source object's mesh, build a
prism ("scale") from the face, displace it away from the source
object's origin, and give it the face's material.

The source mesh (`o.data`) holds its faces (each a vertex list in local
coordinates plus a material index), the active UV layer's per-loop data
(`oM.uv_layers.active.data`, `none` when there is no UV layer) and the
object's own material slots (`o.data.materials`).  Loop indices are
global and consecutive face by face, as `bmesh.from_mesh` produces them:
face `k` owns loops `loopStart k .. loopStart k + len(verts) - 1`.

`o.matrix_world` is the affine transform the script applies to the
copied BMesh (`bmesh.ops.transform`): a linear part (three rows) plus a
translation. -/

namespace shedScaleSkin

/-- One face of the source mesh. -/
structure Face where
  verts : List (Vec3 ℝ)
  material_index : Nat

/-- The source object's mesh datablock `oM = o.data`. -/
structure SMesh where
  faces : List Face
  uvData : Option (List (ℝ × ℝ))
  materials : List String

/-- An affine transform (the effective content of a 4x4 `matrix_world`). -/
structure Affine where
  rx : Vec3 ℝ
  ry : Vec3 ℝ
  rz : Vec3 ℝ
  tr : Vec3 ℝ

def dot (a b : Vec3 ℝ) : ℝ := a.x * b.x + a.y * b.y + a.z * b.z

def Affine.apply (m : Affine) (v : Vec3 ℝ) : Vec3 ℝ :=
  ⟨dot m.rx v + m.tr.x, dot m.ry v + m.tr.y, dot m.rz v + m.tr.z⟩

/-- The source object (`bpy.data.objects[originalObjectName]`). -/
structure SObj where
  name : String
  location : Vec3 ℝ
  matrix_world : Affine
  data : SMesh
  selected : Bool

/-- A generated scale object, as linked into the scene collection. -/
structure ScaleObj where
  name : String
  location : Vec3 ℝ
  materials : List String
  selected : Bool

/-- The scene state the script touches: the source object, the global
material collection `bpy.data.materials`, and the scale objects the
script has linked so far. -/
structure ShedState where
  source : SObj
  materialsGlobal : List String
  scales : List ScaleObj

def SCALE_THICKNESS : ℝ := 0.05

def DISPLACEMENT_DISTANCE : ℝ := 1

/-- Sum of a list of vectors. -/
def vsum : List (Vec3 ℝ) → Vec3 ℝ
  | [] => 0
  | v :: vs => v + vsum vs

/-- `BMFace.calc_center_median`: the average of the face's vertices. -/
noncomputable def centerMedian (vs : List (Vec3 ℝ)) : Vec3 ℝ :=
  (1 / (vs.length : ℝ)) • vsum vs

/-- The vertices of the extruded prism: the face's vertices together
with their copies translated by `vecOtoS * SCALE_THICKNESS`
(`bmesh.ops.extrude_face_region` followed by `bmesh.ops.translate` on
the extrusion's vertices). -/
def prismVerts (verts : List (Vec3 ℝ)) (vec : Vec3 ℝ) : List (Vec3 ℝ) :=
  verts ++ verts.map (fun v => v + SCALE_THICKNESS • vec)

/-- Loop counts of the faces of the extruded prism built from an `n`-gon:
the original face, the extruded copy, and `n` quad side faces. -/
def scaleFaceLoopCounts (n : Nat) : List Nat :=
  n :: n :: List.replicate n 4

/-- The UV copy loop succeeds: for every loop index
`loopIndex = loopStart + j` of the source face, the access
`oM.uv_layers.active.data[loopIndex]` is in range and
`sFace.loops[loopIndex % 4]` is in range for every face of the prism.
A quad never fails here; a triangle fails exactly when one of its loop
indices is `3 mod 4`; faces with five or more vertices never fail. -/
def uvCopySucceeds (uvLen loopStart n : Nat) : Bool :=
  (List.range n).all fun j =>
    decide (loopStart + j < uvLen) &&
      (scaleFaceLoopCounts n).all fun c => decide ((loopStart + j) % 4 < c)

/-- The scale object built from one (world-transformed) face, with the
effect of `origin_set(type='ORIGIN_GEOMETRY')` (the object's origin
becomes the median of its geometry) and of the final
`transform.translate(value=vecOtoS * DISPLACEMENT_DISTANCE)` (the only
selected object is the new scale, so exactly it moves). -/
noncomputable def mkScale (oName : String) (oLoc : Vec3 ℝ) (mat : String)
    (faceNum : Nat) (f : Face) : ScaleObj :=
  let vecOtoS := Vec3.normalize (centerMedian f.verts - oLoc)
  { name := "scale" ++ oName ++ toString faceNum
    location := centerMedian (prismVerts f.verts vecOtoS) +
      DISPLACEMENT_DISTANCE • vecOtoS
    materials := [mat]
    selected := true }

/-- Processing of one face of the (already world-transformed) BMesh:
build and extrude the scale BMesh, copy the face's UVs onto it (`none`
when the mesh has no active UV layer — `oM.uv_layers.active` is `None` —
or when a loop access is out of range), link the new object, deselect
everything, select only the new scale, re-center its origin and
translate it outward, and append `bpy.data.materials[face.material_index]`
(`none` when that global index is out of range).  A failed run never
yields a final state, so the partially linked object of a late failure
is not represented. -/
noncomputable def processFace (st : ShedState) (f : Face) (faceNum loopStart : Nat) :
    Option ShedState :=
  match st.source.data.uvData with
  | none => none
  | some uvd =>
    if uvCopySucceeds uvd.length loopStart f.verts.length then
      match st.materialsGlobal[f.material_index]? with
      | none => none
      | some mat =>
        some { st with
               source := { st.source with selected := false }
               scales := st.scales.map (fun sc => { sc with selected := false }) ++
                 [mkScale st.source.name st.source.location mat faceNum f] }
    else none

/-- `for face in oBM.faces: ...`, threading the face counter `faceNum`
and the global index of the face's first loop. -/
noncomputable def runFaces : ShedState → List Face → Nat → Nat → Option ShedState
  | st, [], _, _ => some st
  | st, f :: rest, faceNum, loopStart =>
    match processFace st f faceNum loopStart with
    | none => none
    | some st1 => runFaces st1 rest (faceNum + 1) (loopStart + f.verts.length)

/-- The source mesh's faces with `matrix_world` applied to their
vertices (`bmesh.ops.transform(oBM, matrix=o.matrix_world, ...)`). -/
def tFaces (st : ShedState) : List Face :=
  st.source.data.faces.map fun f =>
    { f with verts := f.verts.map st.source.matrix_world.apply }

/-- The whole script: switch to object mode, deselect all, select the
source object, build one scale per face, and deselect all at the end. -/
noncomputable def shedRun (st : ShedState) : Option ShedState :=
  let st0 : ShedState :=
    { st with
      source := { st.source with selected := true }
      scales := st.scales.map fun sc => { sc with selected := false } }
  match runFaces st0 (tFaces st) 0 0 with
  | none => none
  | some st1 =>
    some { st1 with
           source := { st1.source with selected := false }
           scales := st1.scales.map fun sc => { sc with selected := false } }

/-- A scale object with its selection flag cleared. -/
def deselScale (sc : ScaleObj) : ScaleObj := { sc with selected := false }

/-- The list of scales the face loop appends, one per face, numbered from
`faceNum`, all viewed deselected. -/
noncomputable def buildScales (oName : String) (oLoc : Vec3 ℝ) (gmats : List String) :
    List Face → Nat → List ScaleObj
  | [], _ => []
  | f :: rest, faceNum =>
    deselScale (mkScale oName oLoc (gmats.getD f.material_index "") faceNum f) ::
      buildScales oName oLoc gmats rest (faceNum + 1)

/-- Clearing every selection flag of the shed scene (used to state that
the per-face processing never depends on leftover selections). -/
def shedDeselectAll (st : ShedState) : ShedState :=
  { st with
    source := { st.source with selected := false }
    scales := st.scales.map deselScale }

end shedScaleSkin

/-! ## Concrete inputs used by witnesses and counterexamples -/

namespace crowdControl

/-- A sample object for concrete scenes. -/
def sampleObj (nm : String) (loc : Vec3 ℚ) (sel : Bool) : Obj ℚ :=
  { name := nm, location := loc, selected := sel, rigidbody := some "ACTIVE",
    rbSettings := "S", bakedFrames := none, materials := [some "M"] }

/-- A one-object scene whose object `Bob` is selected before any call. -/
def preSelectedScene : Scene ℚ :=
  { objects := [sampleObj "Bob" ⟨0, 0, 0⟩ true], active := none, materialsData := ["M"] }

/-- A one-object scene for the rigid-body and material procedures. -/
def rigidScene : Scene ℚ :=
  { objects := [sampleObj "Crowd1" ⟨0, 0, 0⟩ false], active := some "Crowd1",
    materialsData := ["M"] }

/-- A sample real-coordinate object. -/
def agentObj (loc : Vec3 ℝ) : Obj ℝ :=
  { name := "Agent", location := loc, selected := false, rigidbody := none,
    rbSettings := "S", bakedFrames := none, materials := [] }

/-- A one-object real scene with the object at the origin. -/
def agentSceneO : Scene ℝ :=
  { objects := [agentObj ⟨0, 0, 0⟩], active := none, materialsData := [] }

/-- A one-object real scene with the object at `(1, 0, 0)`. -/
def agentSceneX : Scene ℝ :=
  { objects := [agentObj ⟨1, 0, 0⟩], active := none, materialsData := [] }

end crowdControl

namespace shedScaleSkin

/-- The identity `matrix_world`. -/
def idAffine : Affine :=
  { rx := ⟨1, 0, 0⟩, ry := ⟨0, 1, 0⟩, rz := ⟨0, 0, 1⟩, tr := ⟨0, 0, 0⟩ }

/-- A quad face whose center is `(1, 0, 0)`. -/
def quadFaceX : Face :=
  { verts := [⟨1, 1, 1⟩, ⟨1, 1, -1⟩, ⟨1, -1, -1⟩, ⟨1, -1, 1⟩], material_index := 0 }

/-- A source object built from one mesh, at the origin, with the
identity world transform. -/
def mkSource (m : SMesh) : SObj :=
  { name := "Cube", location := ⟨0, 0, 0⟩, matrix_world := idAffine, data := m,
    selected := false }

/-- A one-quad mesh with a four-entry UV layer and one material slot. -/
def oneQuadMesh : SMesh :=
  { faces := [quadFaceX], uvData := some [(0, 0), (0, 1), (1, 1), (1, 0)],
    materials := ["Mat"] }

/-- A one-quad source object at the origin with one material. -/
def oneQuadState : ShedState :=
  { source := mkSource oneQuadMesh, materialsGlobal := ["Mat"], scales := [] }

/-- A one-quad mesh whose own slot 0 holds `Blue`. -/
def matBugMesh : SMesh :=
  { faces := [quadFaceX], uvData := some [(0, 0), (0, 1), (1, 1), (1, 0)],
    materials := ["Blue"] }

/-- A one-quad source object whose mesh's own slot 0 holds `Blue` while
the global material collection holds `Red` first. -/
def matBugState : ShedState :=
  { source := mkSource matBugMesh, materialsGlobal := ["Red", "Blue"], scales := [] }

/-- A quad face whose center is the origin. -/
def originQuad : Face :=
  { verts := [⟨1, 1, 0⟩, ⟨1, -1, 0⟩, ⟨-1, -1, 0⟩, ⟨-1, 1, 0⟩], material_index := 0 }

/-- The one-face mesh of `originQuad`. -/
def originQuadMesh : SMesh :=
  { faces := [originQuad], uvData := some [(0, 0), (0, 1), (1, 1), (1, 0)],
    materials := ["Mat"] }

/-- A source object whose single quad face is centered exactly at the
object's origin. -/
def zeroDispState : ShedState :=
  { source := mkSource originQuadMesh, materialsGlobal := ["Mat"], scales := [] }

/-- A pentagon face (five vertices, center `(1, 0, 0)`). -/
def pentFace : Face :=
  { verts := [⟨1, 1, 0⟩, ⟨1, -1, 0⟩, ⟨1, 0, 1⟩, ⟨1, 0, -1⟩, ⟨1, 0, 0⟩],
    material_index := 0 }

/-- The one-face mesh of `pentFace`, with a five-entry UV layer. -/
def pentMesh : SMesh :=
  { faces := [pentFace], uvData := some [(0, 0), (0, 1), (1, 1), (1, 0), (0.5, 0.5)],
    materials := ["Mat"] }

/-- A source object whose single face is a pentagon. -/
def pentState : ShedState :=
  { source := mkSource pentMesh, materialsGlobal := ["Mat"], scales := [] }

end shedScaleSkin

/-! ## Toggling selection by name (claims C5, C10, C6, C9, C8) -/

/-- The empty string is a prefix of every name. -/
theorem startswith_empty_true (s : String) : startswith s "" = true := by
  rw [startswith]
  have h : ("" : String).toList = [] := rfl
  rw [h]
  cases s.toList <;> rfl

namespace crowdControl

theorem matchesRoot_select_set {α : Type} (nameRoot : String) (b : Bool) (o : Obj α) :
    matchesRoot nameRoot (select_set b o) = matchesRoot nameRoot o := rfl

theorem deselect_all_idem {α : Type} (s : Scene α) :
    deselect_all (deselect_all s) = deselect_all s := by
  simp [deselect_all, List.map_map, Function.comp_def, select_set]

end crowdControl

/-- Claim C5: for every scene and every prefix, `select` sets the
selected flag to true on exactly the objects whose names start with the
prefix and `deselect` sets it to false on exactly those; every other
object's flag (and every object's name) is unchanged by either call. -/
theorem select_deselect_toggle_exactly (s : crowdControl.Scene ℚ) (nameRoot : String)
    (i : Nat) :
    ((crowdControl.select nameRoot s).objects[i]?.map fun o => o.selected)
      = (s.objects[i]?.map fun o =>
          if crowdControl.matchesRoot nameRoot o then true else o.selected)
  ∧ ((crowdControl.deselect nameRoot s).objects[i]?.map fun o => o.selected)
      = (s.objects[i]?.map fun o =>
          if crowdControl.matchesRoot nameRoot o then false else o.selected)
  ∧ ((crowdControl.select nameRoot s).objects[i]?.map fun o => o.name)
      = (s.objects[i]?.map fun o => o.name)
  ∧ ((crowdControl.deselect nameRoot s).objects[i]?.map fun o => o.name)
      = (s.objects[i]?.map fun o => o.name) := by
  have key : ∀ b : Bool, ∀ l : List (crowdControl.Obj ℚ),
      ((l.map fun o =>
          if crowdControl.matchesRoot nameRoot o then crowdControl.select_set b o else o)[i]?.map
            fun o => o.selected)
        = (l[i]?.map fun o =>
            if crowdControl.matchesRoot nameRoot o then b else o.selected)
      ∧ ((l.map fun o =>
          if crowdControl.matchesRoot nameRoot o then crowdControl.select_set b o else o)[i]?.map
            fun o => o.name)
        = (l[i]?.map fun o => o.name) := by
    intro b l
    constructor <;> simp only [List.getElem?_map] <;> cases l[i]? with
    | none => simp
    | some o =>
      cases h : crowdControl.matchesRoot nameRoot o <;>
        simp [h, crowdControl.select_set]
  exact ⟨(key true s.objects).1, (key false s.objects).1,
    (key true s.objects).2, (key false s.objects).2⟩

/-- Claim C10: the empty prefix matches every object: `_getObjList("")`
returns the whole object list, `select("")` selects every object, and
`move("", v)` moves every object by `v` (names unchanged). -/
theorem empty_nameRoot_matches_every_object (s : crowdControl.Scene ℚ) (v : Vec3 ℚ)
    (i : Nat) :
    crowdControl.getObjList "" s = s.objects
  ∧ ((crowdControl.select "" s).objects[i]?.map fun o => o.selected)
      = (s.objects[i]?.map fun _ => true)
  ∧ ((crowdControl.move "" v s).objects[i]?.map fun o => o.location)
      = (s.objects[i]?.map fun o => o.location + v)
  ∧ ((crowdControl.move "" v s).objects[i]?.map fun o => o.name)
      = (s.objects[i]?.map fun o => o.name) := by
  have hm : ∀ o : crowdControl.Obj ℚ, crowdControl.matchesRoot "" o = true := fun o =>
    startswith_empty_true o.name
  refine ⟨?_, ?_, ?_, ?_⟩
  · exact List.filter_eq_self.mpr fun o _ => hm o
  · simp only [crowdControl.select, List.getElem?_map]
    cases s.objects[i]? <;> simp [hm, crowdControl.select_set]
  · simp only [crowdControl.move, crowdControl.translateSelected, crowdControl.select,
      crowdControl.deselect_all, List.map_map, List.getElem?_map]
    cases s.objects[i]? <;> simp [hm, crowdControl.select_set, Function.comp_def]
  · simp only [crowdControl.move, crowdControl.translateSelected, crowdControl.select,
      crowdControl.deselect_all, List.map_map, List.getElem?_map]
    cases s.objects[i]? <;> simp [hm, crowdControl.select_set, Function.comp_def]

/-- Claim C6: two `move` calls with vectors `v1` then `v2` produce
exactly the scene of one `move` with `v1 + v2` (the matched set depends
only on names, which `move` never changes). -/
theorem move_then_move_eq_move_add (s : crowdControl.Scene ℚ) (nameRoot : String)
    (v1 v2 : Vec3 ℚ) :
    crowdControl.move nameRoot v2 (crowdControl.move nameRoot v1 s)
      = crowdControl.move nameRoot (v1 + v2) s := by
  have addA : ∀ w : Vec3 ℚ, w + v1 + v2 = w + (v1 + v2) := by
    intro w
    ext <;> simp [add_assoc]
  simp only [crowdControl.move, crowdControl.translateSelected, crowdControl.select,
    crowdControl.deselect_all, List.map_map]
  congr 1
  apply List.map_congr_left
  intro o _
  simp only [Function.comp_def]
  cases h : crowdControl.matchesRoot nameRoot o <;>
    rw [crowdControl.matchesRoot] at h <;>
    simp [crowdControl.select_set, crowdControl.matchesRoot, h, addA]

/-- Claim C9: after `enable_rigidbody`, `disable_rigidbody` or
`assign_material` returns, the view layer's active object is `None`,
whatever was active before the call. -/
theorem active_none_after_rigidbody_and_material (s : crowdControl.Scene ℚ)
    (nameRoot type' material : String) :
    (crowdControl.enable_rigidbody nameRoot type' s).active = none
  ∧ (∀ s1, crowdControl.disable_rigidbody nameRoot s = some s1 → s1.active = none)
  ∧ (∀ s1, crowdControl.assign_material nameRoot material s = some s1 →
      s1.active = none) := by
  refine ⟨rfl, ?_, ?_⟩
  · intro s1 h
    rw [crowdControl.disable_rigidbody] at h
    split at h
    · simp only [Option.some.injEq] at h
      subst h
      rfl
    · exact absurd h (by simp)
  · intro s1 h
    rw [crowdControl.assign_material] at h
    split at h
    · split at h
      · simp only [Option.some.injEq] at h
        subst h
        rfl
      · exact absurd h (by simp)
    · simp only [Option.some.injEq] at h
      subst h
      rfl

/-- Claim C9 witness: on a concrete one-object scene all three
procedures return with no active object. -/
theorem active_none_witness :
    (crowdControl.enable_rigidbody "Crowd" "ACTIVE" crowdControl.rigidScene).active = none
  ∧ ((crowdControl.disable_rigidbody "Crowd" crowdControl.rigidScene).getD
      crowdControl.rigidScene).active = none
  ∧ ((crowdControl.assign_material "Crowd" "M" crowdControl.rigidScene).getD
      crowdControl.rigidScene).active = none := by
  have h := active_none_after_rigidbody_and_material crowdControl.rigidScene
    "Crowd" "ACTIVE" "M"
  refine ⟨h.1, ?_, ?_⟩
  · cases hd : crowdControl.disable_rigidbody "Crowd" crowdControl.rigidScene with
    | none => exact absurd hd (by decide)
    | some s1 => simpa [hd] using h.2.1 s1 hd
  · cases ha : crowdControl.assign_material "Crowd" "M" crowdControl.rigidScene with
    | none => exact absurd ha (by decide)
    | some s1 => simpa [ha] using h.2.2 s1 ha

/-- Claim C8 counterexample: the prior selection is not restored around
an operation.  Before the call the object `Bob` is selected; after
`move("A", v)` it is deselected, so the pre-call selection state is
gone. -/
theorem move_does_not_restore_selection :
    ((crowdControl.move "A" ⟨1, 0, 0⟩ crowdControl.preSelectedScene).objects.map
        fun o => o.selected)
      ≠ (crowdControl.preSelectedScene.objects.map fun o => o.selected) := by decide

/-- Claim C8 (amended): every selection-driven operation (`move`,
`move_towards`, `bake_rigidbody`, `copy_rigidbody_settings`, and the
scale generator's per-face deselect/origin-set/translate step) first
clears the selection state, so its result is the same whatever was
selected before the call: no operation acts on leftover selections.
The prior selection is not restored afterwards. -/
theorem ops_independent_of_prior_selection
    (s : crowdControl.Scene ℚ) (sr : crowdControl.Scene ℝ)
    (sh : shedScaleSkin.ShedState) (nameRoot template : String) (v : Vec3 ℚ)
    (target : Vec3 ℝ) (value : ℝ) (startFrame endFrame step faceNum loopStart : Nat)
    (f : shedScaleSkin.Face) :
    crowdControl.move nameRoot v (crowdControl.deselect_all s)
      = crowdControl.move nameRoot v s
  ∧ crowdControl.move_towards nameRoot target value (crowdControl.deselect_all sr)
      = crowdControl.move_towards nameRoot target value sr
  ∧ crowdControl.bake_rigidbody nameRoot startFrame endFrame step
        (crowdControl.deselect_all s)
      = crowdControl.bake_rigidbody nameRoot startFrame endFrame step s
  ∧ crowdControl.copy_rigidbody_settings nameRoot template (crowdControl.deselect_all s)
      = crowdControl.copy_rigidbody_settings nameRoot template s
  ∧ shedScaleSkin.processFace (shedScaleSkin.shedDeselectAll sh) f faceNum loopStart
      = shedScaleSkin.processFace sh f faceNum loopStart := by
  refine ⟨?_, ?_, ?_, ?_, ?_⟩
  · simp only [crowdControl.move, crowdControl.deselect_all_idem]
  · simp only [crowdControl.move_towards, crowdControl.deselect_all_idem]
  · simp only [crowdControl.bake_rigidbody, crowdControl.deselect_all_idem]
  · simp only [crowdControl.copy_rigidbody_settings, crowdControl.deselect_all_idem]
  · rw [shedScaleSkin.processFace, shedScaleSkin.processFace]
    simp only [shedScaleSkin.shedDeselectAll]
    cases h : sh.source.data.uvData with
    | none => rfl
    | some uvd =>
      simp only []
      split
      · simp [shedScaleSkin.deselScale, List.map_map, Function.comp_def]
      · rfl

/-! ## Vector length lemmas (for `mathutils.Vector.normalize`) -/

theorem Vec3.normSq_nonneg (v : Vec3 ℝ) : 0 ≤ Vec3.normSq v := by
  rw [Vec3.normSq]
  positivity

theorem Vec3.vnorm_nonneg (v : Vec3 ℝ) : 0 ≤ Vec3.vnorm v :=
  Real.sqrt_nonneg _

theorem Vec3.normSq_eq_zero_iff (v : Vec3 ℝ) : Vec3.normSq v = 0 ↔ v = 0 := by
  constructor
  · intro h
    rw [Vec3.normSq] at h
    have hx : v.x ^ 2 = 0 := by nlinarith [sq_nonneg v.x, sq_nonneg v.y, sq_nonneg v.z]
    have hy : v.y ^ 2 = 0 := by nlinarith [sq_nonneg v.x, sq_nonneg v.y, sq_nonneg v.z]
    have hz : v.z ^ 2 = 0 := by nlinarith [sq_nonneg v.x, sq_nonneg v.y, sq_nonneg v.z]
    ext
    · simpa using (pow_eq_zero_iff two_ne_zero).mp hx
    · simpa using (pow_eq_zero_iff two_ne_zero).mp hy
    · simpa using (pow_eq_zero_iff two_ne_zero).mp hz
  · intro h
    subst h
    simp [Vec3.normSq]

theorem Vec3.vnorm_eq_zero_iff (v : Vec3 ℝ) : Vec3.vnorm v = 0 ↔ v = 0 := by
  rw [Vec3.vnorm, Real.sqrt_eq_zero (Vec3.normSq_nonneg v), Vec3.normSq_eq_zero_iff]

theorem Vec3.vnorm_pos (v : Vec3 ℝ) (h : v ≠ 0) : 0 < Vec3.vnorm v :=
  lt_of_le_of_ne (Vec3.vnorm_nonneg v)
    (fun he => h ((Vec3.vnorm_eq_zero_iff v).mp he.symm))

theorem Vec3.vnorm_zero : Vec3.vnorm (0 : Vec3 ℝ) = 0 := by
  simp [Vec3.vnorm, Vec3.normSq]

theorem Vec3.normalize_zero : Vec3.normalize (0 : Vec3 ℝ) = 0 := by
  simp [Vec3.normalize, Vec3.vnorm_zero]

theorem Vec3.normSq_smul (c : ℝ) (v : Vec3 ℝ) :
    Vec3.normSq (c • v) = c ^ 2 * Vec3.normSq v := by
  simp [Vec3.normSq]
  ring

theorem Vec3.vnorm_smul (c : ℝ) (v : Vec3 ℝ) :
    Vec3.vnorm (c • v) = |c| * Vec3.vnorm v := by
  rw [Vec3.vnorm, Vec3.normSq_smul, Real.sqrt_mul (sq_nonneg c), Real.sqrt_sq_eq_abs,
    ← Vec3.vnorm]

theorem Vec3.vnorm_normalize (v : Vec3 ℝ) (h : v ≠ 0) :
    Vec3.vnorm (Vec3.normalize v) = 1 := by
  have hv := Vec3.vnorm_pos v h
  rw [Vec3.normalize, if_neg (ne_of_gt hv), Vec3.vnorm_smul,
    abs_of_pos (by positivity : (0 : ℝ) < 1 / Vec3.vnorm v)]
  field_simp

theorem Vec3.sub_eq_zero_iff (a b : Vec3 ℝ) : a - b = 0 ↔ a = b := by
  constructor
  · intro h
    have hx := congrArg Vec3.x h
    have hy := congrArg Vec3.y h
    have hz := congrArg Vec3.z h
    simp at hx hy hz
    ext <;> linarith
  · intro h
    subst h
    ext <;> simp

/-- The distance to `target` after one `move_towards` iteration: moving
`value` units along the unit vector towards `target` from distance `d`
lands at distance `|d - value|`. -/
theorem Vec3.dist_after_step (loc target : Vec3 ℝ) (value : ℝ)
    (h : target - loc ≠ 0) :
    Vec3.vnorm (target - (loc + value • Vec3.normalize (target - loc)))
      = |Vec3.vnorm (target - loc) - value| := by
  have hd : 0 < Vec3.vnorm (target - loc) := Vec3.vnorm_pos _ h
  have h1 : target - (loc + value • Vec3.normalize (target - loc))
      = (1 - value / Vec3.vnorm (target - loc)) • (target - loc) := by
    rw [Vec3.normalize, if_neg (ne_of_gt hd)]
    ext <;> simp <;> ring
  rw [h1, Vec3.vnorm_smul]
  have h2 : |1 - value / Vec3.vnorm (target - loc)| * Vec3.vnorm (target - loc)
      = |(1 - value / Vec3.vnorm (target - loc)) * Vec3.vnorm (target - loc)| := by
    rw [abs_mul, abs_of_pos hd]
  rw [h2]
  congr 1
  field_simp

namespace crowdControl

theorem move_towards_step_location (target : Vec3 ℝ) (value : ℝ) (o : Obj ℝ) :
    (move_towards_step target value o).location
      = o.location + value • Vec3.normalize (target - o.location) := rfl

/-- What `move_towards` does to the `i`-th object when it is matched. -/
theorem move_towards_getElem (s : Scene ℝ) (nameRoot : String) (target : Vec3 ℝ)
    (value : ℝ) (i : Nat) (o : Obj ℝ) (ho : s.objects[i]? = some o)
    (hm : matchesRoot nameRoot o = true) :
    (move_towards nameRoot target value s).objects[i]?
      = some (move_towards_step target value (select_set false o)) := by
  simp [move_towards, deselect_all, List.getElem?_map, ho, matchesRoot_select_set, hm]

end crowdControl

/-- Claim C2 counterexample: a positive value does not always strictly
decrease the distance to the target.  An object already at the target
does not move at all (the zero vector normalizes to zero), and an object
at distance 1 moved 3 units overshoots to distance 2. -/
theorem move_towards_claim_counterexample :
    ∃ o1 o2,
      (crowdControl.move_towards "Agent" ⟨0, 0, 0⟩ 1 crowdControl.agentSceneO).objects[0]?
        = some o1
    ∧ Vec3.vnorm ((⟨0, 0, 0⟩ : Vec3 ℝ) - o1.location)
        = Vec3.vnorm ((⟨0, 0, 0⟩ : Vec3 ℝ) - (crowdControl.agentObj ⟨0, 0, 0⟩).location)
    ∧ (crowdControl.move_towards "Agent" ⟨0, 0, 0⟩ 3 crowdControl.agentSceneX).objects[0]?
        = some o2
    ∧ Vec3.vnorm ((⟨0, 0, 0⟩ : Vec3 ℝ) - (crowdControl.agentObj ⟨1, 0, 0⟩).location)
        < Vec3.vnorm ((⟨0, 0, 0⟩ : Vec3 ℝ) - o2.location) := by
  have hm : ∀ loc : Vec3 ℝ, crowdControl.matchesRoot "Agent" (crowdControl.agentObj loc)
      = true := fun _ => rfl
  have h0 : crowdControl.agentSceneO.objects[0]? = some (crowdControl.agentObj ⟨0, 0, 0⟩) :=
    rfl
  have hX : crowdControl.agentSceneX.objects[0]? = some (crowdControl.agentObj ⟨1, 0, 0⟩) :=
    rfl
  refine ⟨_, _, crowdControl.move_towards_getElem _ _ _ _ _ _ h0 (hm _), ?_,
    crowdControl.move_towards_getElem _ _ _ _ _ _ hX (hm _), ?_⟩
  · have hw : (⟨0, 0, 0⟩ : Vec3 ℝ) -
        (crowdControl.select_set false (crowdControl.agentObj ⟨0, 0, 0⟩)).location
        = 0 := by
      ext <;> simp [crowdControl.agentObj, crowdControl.select_set]
    have hloc : (crowdControl.move_towards_step ⟨0, 0, 0⟩ 1
        (crowdControl.select_set false (crowdControl.agentObj ⟨0, 0, 0⟩))).location
        = ⟨0, 0, 0⟩ := by
      rw [crowdControl.move_towards_step_location, hw, Vec3.normalize_zero]
      ext <;> simp [crowdControl.agentObj, crowdControl.select_set]
    rw [hloc]
    rfl
  · have hw : (⟨0, 0, 0⟩ : Vec3 ℝ) -
        (crowdControl.select_set false (crowdControl.agentObj ⟨1, 0, 0⟩)).location
        = ⟨-1, 0, 0⟩ := by
      ext <;> simp [crowdControl.agentObj, crowdControl.select_set]
    have hn1 : Vec3.vnorm (⟨-1, 0, 0⟩ : Vec3 ℝ) = 1 := by
      rw [Vec3.vnorm, Vec3.normSq]
      norm_num
    have hnz : Vec3.normalize (⟨-1, 0, 0⟩ : Vec3 ℝ) = ⟨-1, 0, 0⟩ := by
      rw [Vec3.normalize, hn1, if_neg one_ne_zero]
      ext <;> norm_num
    have hloc : (crowdControl.move_towards_step ⟨0, 0, 0⟩ 3
        (crowdControl.select_set false (crowdControl.agentObj ⟨1, 0, 0⟩))).location
        = ⟨-2, 0, 0⟩ := by
      rw [crowdControl.move_towards_step_location, hw, hnz]
      ext <;> simp [crowdControl.agentObj, crowdControl.select_set] <;> norm_num
    rw [hloc]
    have h1 : (⟨0, 0, 0⟩ : Vec3 ℝ) - (crowdControl.agentObj ⟨1, 0, 0⟩).location
        = ⟨-1, 0, 0⟩ := by
      ext <;> simp [crowdControl.agentObj]
    have h2 : (⟨0, 0, 0⟩ : Vec3 ℝ) - (⟨-2, 0, 0⟩ : Vec3 ℝ) = ⟨2, 0, 0⟩ := by
      ext <;> norm_num
    have hn2 : Vec3.vnorm (⟨2, 0, 0⟩ : Vec3 ℝ) = 2 := by
      rw [Vec3.vnorm, Vec3.normSq]
      norm_num
      rw [show (4 : ℝ) = 2 ^ 2 by norm_num, Real.sqrt_sq (by norm_num : (0 : ℝ) ≤ 2)]
    rw [h1, h2, hn1, hn2]
    norm_num

/-- Claim C2 (amended): for a matched object that is not already at the
target, a positive value smaller than twice the current distance
strictly decreases the distance to the target, and a negative value
strictly increases it.  (An object at the target never moves, and a
value of at least twice the distance overshoots.) -/
theorem move_towards_changes_distance (s : crowdControl.Scene ℝ) (nameRoot : String)
    (target : Vec3 ℝ) (value : ℝ) (i : Nat) (o : crowdControl.Obj ℝ)
    (ho : s.objects[i]? = some o) (hm : crowdControl.matchesRoot nameRoot o = true)
    (hne : o.location ≠ target) :
    ∃ o1, (crowdControl.move_towards nameRoot target value s).objects[i]? = some o1
    ∧ (0 < value → value < 2 * Vec3.vnorm (target - o.location) →
        Vec3.vnorm (target - o1.location) < Vec3.vnorm (target - o.location))
    ∧ (value < 0 →
        Vec3.vnorm (target - o.location) < Vec3.vnorm (target - o1.location)) := by
  have hwne : target - o.location ≠ (0 : Vec3 ℝ) := by
    intro h0
    exact hne ((Vec3.sub_eq_zero_iff target o.location).mp h0).symm
  have hd : 0 < Vec3.vnorm (target - o.location) := Vec3.vnorm_pos _ hwne
  have hloc : (crowdControl.move_towards_step target value
      (crowdControl.select_set false o)).location
      = o.location + value • Vec3.normalize (target - o.location) := rfl
  have key : Vec3.vnorm (target - (crowdControl.move_towards_step target value
      (crowdControl.select_set false o)).location)
      = |Vec3.vnorm (target - o.location) - value| := by
    rw [hloc]
    exact Vec3.dist_after_step o.location target value hwne
  refine ⟨crowdControl.move_towards_step target value (crowdControl.select_set false o),
    crowdControl.move_towards_getElem s nameRoot target value i o ho hm, ?_, ?_⟩
  · intro hv hlt
    rw [key, abs_lt]
    constructor <;> linarith
  · intro hv
    rw [key, abs_of_pos (by linarith : 0 < Vec3.vnorm (target - o.location) - value)]
    linarith

/-- Claim C2 witness: the agent at the origin, moved half a unit towards
the target one unit away, ends strictly closer to it. -/
theorem move_towards_changes_distance_witness :
    ∃ o1, (crowdControl.move_towards "Agent" ⟨1, 0, 0⟩ (1 / 2)
        crowdControl.agentSceneO).objects[0]? = some o1
    ∧ Vec3.vnorm ((⟨1, 0, 0⟩ : Vec3 ℝ) - o1.location)
        < Vec3.vnorm ((⟨1, 0, 0⟩ : Vec3 ℝ) - (crowdControl.agentObj ⟨0, 0, 0⟩).location) := by
  have hne : (crowdControl.agentObj ⟨0, 0, 0⟩).location ≠ (⟨1, 0, 0⟩ : Vec3 ℝ) := by
    intro h
    exact zero_ne_one (congrArg Vec3.x h)
  obtain ⟨o1, h1, h2, _⟩ := move_towards_changes_distance crowdControl.agentSceneO
    "Agent" ⟨1, 0, 0⟩ (1 / 2) 0 (crowdControl.agentObj ⟨0, 0, 0⟩) rfl rfl hne
  have hdist : Vec3.vnorm ((⟨1, 0, 0⟩ : Vec3 ℝ) -
      (crowdControl.agentObj ⟨0, 0, 0⟩).location) = 1 := by
    have hw : (⟨1, 0, 0⟩ : Vec3 ℝ) - (crowdControl.agentObj ⟨0, 0, 0⟩).location
        = ⟨1, 0, 0⟩ := by
      ext <;> simp [crowdControl.agentObj]
    rw [hw, Vec3.vnorm, Vec3.normSq]
    norm_num
  exact ⟨o1, h1, h2 (by norm_num) (by rw [hdist]; norm_num)⟩

/-! ## The scale generator's face loop -/

namespace shedScaleSkin

/-- The UV copy loop always succeeds on a quad whose loops fit in the
UV data. -/
theorem uvCopySucceeds_quad (uvLen ls : Nat) (h : ls + 4 ≤ uvLen) :
    uvCopySucceeds uvLen ls 4 = true := by
  simp only [uvCopySucceeds, scaleFaceLoopCounts, List.all_eq_true, List.mem_range,
    Bool.and_eq_true, decide_eq_true_eq]
  intro j hj
  refine ⟨by omega, ?_⟩
  intro c hc
  simp only [List.mem_cons, List.mem_replicate] at hc
  have hc4 : c = 4 := by
    rcases hc with h1 | h1 | ⟨_, h1⟩ <;> exact h1
  subst hc4
  exact Nat.mod_lt _ (by norm_num)

theorem vsum_append (l1 l2 : List (Vec3 ℝ)) :
    vsum (l1 ++ l2) = vsum l1 + vsum l2 := by
  induction l1 with
  | nil => ext <;> simp [vsum]
  | cons v rest ih => ext <;> simp [vsum, ih] <;> ring

theorem vsum_map_add (l : List (Vec3 ℝ)) (w : Vec3 ℝ) :
    vsum (l.map fun v => v + w) = vsum l + (l.length : ℝ) • w := by
  induction l with
  | nil => ext <;> simp [vsum]
  | cons v rest ih => ext <;> simp [vsum, ih] <;> ring

/-- The median center of the extruded prism sits half the extrusion
vector above the face's center. -/
theorem centerMedian_prism (verts : List (Vec3 ℝ)) (w : Vec3 ℝ) (h : verts ≠ []) :
    centerMedian (verts ++ verts.map fun v => v + w)
      = centerMedian verts + (1 / 2 : ℝ) • w := by
  have hn : (verts.length : ℝ) ≠ 0 := by
    simpa using fun h0 => h (List.length_eq_zero.mp h0)
  ext <;>
    simp [centerMedian, vsum_append, vsum_map_add, List.length_append] <;>
    field_simp <;>
    ring

theorem buildScales_length (oName : String) (oLoc : Vec3 ℝ) (gmats : List String) :
    ∀ (faces : List Face) (k : Nat),
      (buildScales oName oLoc gmats faces k).length = faces.length := by
  intro faces
  induction faces with
  | nil => intro k; simp [buildScales]
  | cons f rest ih => intro k; simp [buildScales, ih]

theorem buildScales_getElem (oName : String) (oLoc : Vec3 ℝ) (gmats : List String) :
    ∀ (faces : List Face) (k i : Nat),
      (buildScales oName oLoc gmats faces k)[i]?
        = faces[i]?.map fun f =>
            deselScale (mkScale oName oLoc (gmats.getD f.material_index "") (k + i) f) := by
  intro faces
  induction faces with
  | nil => intro k i; simp [buildScales]
  | cons f rest ih =>
    intro k i
    cases i with
    | zero => simp [buildScales]
    | succ n =>
      have harith : k + 1 + n = k + (n + 1) := by omega
      simp [buildScales, ih (k + 1) n, harith]

/-- Closed form of the face loop on an all-quad face list: it succeeds
and appends exactly one scale per face (viewed with selection flags
cleared), leaving the source object and the material collection
untouched. -/
theorem runFaces_quads (faces : List Face) :
    ∀ (st : ShedState) (k ls : Nat) (uvd : List (ℝ × ℝ)),
      st.source.data.uvData = some uvd →
      (∀ f ∈ faces, f.verts.length = 4) →
      (∀ f ∈ faces, f.material_index < st.materialsGlobal.length) →
      ls + 4 * faces.length ≤ uvd.length →
      ∃ st1, runFaces st faces k ls = some st1
      ∧ (∃ sel, st1.source = { st.source with selected := sel })
      ∧ st1.materialsGlobal = st.materialsGlobal
      ∧ st1.scales.map deselScale
          = st.scales.map deselScale
            ++ buildScales st.source.name st.source.location st.materialsGlobal faces k := by
  induction faces with
  | nil =>
    intro st k ls uvd huv _ _ _
    exact ⟨st, rfl, ⟨st.source.selected, rfl⟩, rfl, by simp [buildScales]⟩
  | cons f rest ih =>
    intro st k ls uvd huv hq hmz hlen
    have hn : f.verts.length = 4 := hq f (List.mem_cons_self f rest)
    have hsucc : uvCopySucceeds uvd.length ls f.verts.length = true := by
      rw [hn]
      exact uvCopySucceeds_quad _ _ (by simp at hlen; omega)
    have hmi : f.material_index < st.materialsGlobal.length :=
      hmz f (List.mem_cons_self f rest)
    have hmat : st.materialsGlobal[f.material_index]?
        = some st.materialsGlobal[f.material_index] :=
      List.getElem?_eq_getElem hmi
    have hgetD : st.materialsGlobal.getD f.material_index ""
        = st.materialsGlobal[f.material_index] :=
      List.getD_eq_getElem st.materialsGlobal "" hmi
    have hpf : processFace st f k ls = some
        { st with
          source := { st.source with selected := false }
          scales := st.scales.map (fun sc => { sc with selected := false }) ++
            [mkScale st.source.name st.source.location
              st.materialsGlobal[f.material_index] k f] } := by
      rw [processFace, huv]
      simp only [hsucc, if_true, hmat]
    obtain ⟨st2, hrun, ⟨sel2, hsrc2⟩, hmg2, hsc2⟩ := ih
      { st with
        source := { st.source with selected := false }
        scales := st.scales.map (fun sc => { sc with selected := false }) ++
          [mkScale st.source.name st.source.location
            st.materialsGlobal[f.material_index] k f] }
      (k + 1) (ls + f.verts.length) uvd huv
      (fun g hg => hq g (List.mem_cons_of_mem f hg))
      (fun g hg => hmz g (List.mem_cons_of_mem f hg))
      (by simp at hlen ⊢; omega)
    refine ⟨st2, ?_, ⟨sel2, hsrc2⟩, hmg2, ?_⟩
    · rw [runFaces, hpf]
      exact hrun
    · rw [hsc2]
      simp only [buildScales, hgetD]
      rw [List.map_append]
      have hmm : (st.scales.map fun sc => { sc with selected := false }).map deselScale
          = st.scales.map deselScale := by
        simp [List.map_map, Function.comp_def, deselScale]
      rw [hmm]
      simp [deselScale, List.append_assoc]

/-- Closed form of the whole script on an all-quad mesh: it succeeds,
leaves the source object untouched apart from its selection flag, and
links exactly the scales built one per (world-transformed) face. -/
theorem shedRun_closed_form (st : ShedState)
    (hq : ∀ f ∈ st.source.data.faces, f.verts.length = 4)
    (huv : ∃ uvd, st.source.data.uvData = some uvd ∧
        4 * st.source.data.faces.length ≤ uvd.length)
    (hm : ∀ f ∈ st.source.data.faces, f.material_index < st.materialsGlobal.length) :
    ∃ st1, shedRun st = some st1
    ∧ st1.source = { st.source with selected := false }
    ∧ st1.materialsGlobal = st.materialsGlobal
    ∧ st1.scales = st.scales.map deselScale
        ++ buildScales st.source.name st.source.location st.materialsGlobal
            (tFaces st) 0 := by
  obtain ⟨uvd, huvd, hlen⟩ := huv
  have hq2 : ∀ f ∈ tFaces st, f.verts.length = 4 := by
    intro f hf
    obtain ⟨g, hg, rfl⟩ := List.mem_map.mp hf
    simpa using hq g hg
  have hm2 : ∀ f ∈ tFaces st, f.material_index < st.materialsGlobal.length := by
    intro f hf
    obtain ⟨g, hg, rfl⟩ := List.mem_map.mp hf
    simpa using hm g hg
  obtain ⟨st1, hrun, ⟨sel, hsrc⟩, hmg, hsc⟩ := runFaces_quads (tFaces st)
    { st with
      source := { st.source with selected := true }
      scales := st.scales.map fun sc => { sc with selected := false } }
    0 0 uvd huvd hq2 hm2
    (by simpa [tFaces] using hlen)
  refine ⟨{ st1 with
    source := { st1.source with selected := false }
    scales := st1.scales.map fun sc => { sc with selected := false } }, ?_, ?_, hmg, ?_⟩
  · simp only [shedRun]
    rw [hrun]
  · rw [hsrc]
  · show st1.scales.map deselScale = _
    rw [hsc]
    simp [List.map_map, Function.comp_def, deselScale]

end shedScaleSkin

/-- Claim C1: on a source mesh all of whose faces are quads (with a UV
layer covering its loops and material indices within the global
collection), the scale generator succeeds and creates exactly one new
scene object per face, and the original object's mesh (and location and
name) is not altered. -/
theorem shed_one_scale_per_quad_face (st : shedScaleSkin.ShedState)
    (hq : ∀ f ∈ st.source.data.faces, f.verts.length = 4)
    (huv : ∃ uvd, st.source.data.uvData = some uvd ∧
        4 * st.source.data.faces.length ≤ uvd.length)
    (hm : ∀ f ∈ st.source.data.faces,
        f.material_index < st.materialsGlobal.length) :
    ∃ st1, shedScaleSkin.shedRun st = some st1
    ∧ st1.scales.length = st.scales.length + st.source.data.faces.length
    ∧ st1.source.data = st.source.data
    ∧ st1.source.location = st.source.location
    ∧ st1.source.name = st.source.name := by
  obtain ⟨st1, hrunit, hsrc, hmg, hsc⟩ := shedScaleSkin.shedRun_closed_form st hq huv hm
  refine ⟨st1, hrunit, ?_, by rw [hsrc], by rw [hsrc], by rw [hsrc]⟩
  rw [hsc]
  simp [shedScaleSkin.buildScales_length, shedScaleSkin.tFaces]

/-- Claim C1 witness: on the concrete one-quad source object the script
creates exactly one scale and leaves the source object's mesh alone. -/
theorem shed_one_scale_witness :
    ∃ st1, shedScaleSkin.shedRun shedScaleSkin.oneQuadState = some st1
    ∧ st1.scales.length = shedScaleSkin.oneQuadState.scales.length +
        shedScaleSkin.oneQuadState.source.data.faces.length
    ∧ st1.source.data = shedScaleSkin.oneQuadState.source.data
    ∧ st1.source.location = shedScaleSkin.oneQuadState.source.location
    ∧ st1.source.name = shedScaleSkin.oneQuadState.source.name := by
  apply shed_one_scale_per_quad_face
  · intro f hf
    simp only [shedScaleSkin.oneQuadState, shedScaleSkin.mkSource,
      shedScaleSkin.oneQuadMesh, List.mem_singleton] at hf
    subst hf
    rfl
  · exact ⟨[(0, 0), (0, 1), (1, 1), (1, 0)], rfl,
      by simp [shedScaleSkin.oneQuadState, shedScaleSkin.mkSource,
        shedScaleSkin.oneQuadMesh]⟩
  · intro f hf
    simp only [shedScaleSkin.oneQuadState, shedScaleSkin.mkSource,
      shedScaleSkin.oneQuadMesh, List.mem_singleton] at hf
    subst hf
    simp [shedScaleSkin.quadFaceX, shedScaleSkin.oneQuadState]

/-- Claim C3: the script assigns `bpy.data.materials[face.material_index]`,
an index into the global material collection, not into the source
object's own material slots.  On `matBugState` the face's material on
the source object is `Blue` (slot 0 of `o.data.materials`), but the
generated scale receives `Red` (entry 0 of the global collection). -/
theorem shed_material_global_index_bug :
    ∃ st1, shedScaleSkin.shedRun shedScaleSkin.matBugState = some st1
    ∧ st1.scales.map (fun sc => sc.materials) = [["Red"]]
    ∧ shedScaleSkin.matBugState.source.data.materials.getD
        shedScaleSkin.quadFaceX.material_index "" = "Blue"
    ∧ "Red" ≠ "Blue" := by
  have hq : ∀ f ∈ shedScaleSkin.matBugState.source.data.faces, f.verts.length = 4 := by
    intro f hf
    simp only [shedScaleSkin.matBugState, shedScaleSkin.mkSource,
      shedScaleSkin.matBugMesh, List.mem_singleton] at hf
    subst hf
    rfl
  have huv : ∃ uvd, shedScaleSkin.matBugState.source.data.uvData = some uvd ∧
      4 * shedScaleSkin.matBugState.source.data.faces.length ≤ uvd.length :=
    ⟨[(0, 0), (0, 1), (1, 1), (1, 0)], rfl,
      by simp [shedScaleSkin.matBugState, shedScaleSkin.mkSource,
        shedScaleSkin.matBugMesh]⟩
  have hm : ∀ f ∈ shedScaleSkin.matBugState.source.data.faces,
      f.material_index < shedScaleSkin.matBugState.materialsGlobal.length := by
    intro f hf
    simp only [shedScaleSkin.matBugState, shedScaleSkin.mkSource,
      shedScaleSkin.matBugMesh, List.mem_singleton] at hf
    subst hf
    simp [shedScaleSkin.quadFaceX, shedScaleSkin.matBugState]
  obtain ⟨st1, hrunbug, _, _, hsc⟩ :=
    shedScaleSkin.shedRun_closed_form shedScaleSkin.matBugState hq huv hm
  refine ⟨st1, hrunbug, ?_, rfl, by decide⟩
  rw [hsc]
  simp [shedScaleSkin.buildScales, shedScaleSkin.deselScale, shedScaleSkin.mkScale,
    shedScaleSkin.tFaces, shedScaleSkin.matBugState, shedScaleSkin.mkSource,
    shedScaleSkin.matBugMesh, shedScaleSkin.quadFaceX]

/-- Claim C7: a non-quad face does not necessarily raise an error.  The
script's own documentation says non-quad faces throw errors, yet a
pentagon is processed without any: every loop access `loops[loopIndex % 4]`
stays in range (its faces all have at least four loops), so the run
succeeds and links a (malformed) scale for the pentagon. -/
theorem shed_pentagon_processed_without_error :
    shedScaleSkin.pentFace.verts.length ≠ 4
  ∧ (shedScaleSkin.shedRun shedScaleSkin.pentState).isSome = true
  ∧ ∃ st1, shedScaleSkin.shedRun shedScaleSkin.pentState = some st1
      ∧ st1.scales.length = 1 := by
  refine ⟨by simp [shedScaleSkin.pentFace], ?_, ?_⟩
  · rfl
  · exact ⟨_, rfl, by simp [shedScaleSkin.pentState]⟩

theorem idAffine_apply (v : Vec3 ℝ) : shedScaleSkin.idAffine.apply v = v := by
  ext <;> simp [shedScaleSkin.Affine.apply, shedScaleSkin.dot, shedScaleSkin.idAffine]

/-- Claim C4 (amended): for every quad face whose (world-space) center
differs from the source object's origin, the generated scale is
translated by exactly `DISPLACEMENT_DISTANCE` along the unit vector from
the origin to the face center (`vecOtoS`), and its resulting
displacement from the source origin is a positive multiple of that
direction — in particular nonzero.  (A face centered exactly at the
origin yields a zero direction vector and a zero displacement.) -/
theorem shed_displacement_outward (st : shedScaleSkin.ShedState)
    (hq : ∀ f ∈ st.source.data.faces, f.verts.length = 4)
    (huv : ∃ uvd, st.source.data.uvData = some uvd ∧
        4 * st.source.data.faces.length ≤ uvd.length)
    (hm : ∀ f ∈ st.source.data.faces,
        f.material_index < st.materialsGlobal.length)
    (i : Nat) (f : shedScaleSkin.Face)
    (hf : (shedScaleSkin.tFaces st)[i]? = some f)
    (hc : shedScaleSkin.centerMedian f.verts ≠ st.source.location) :
    ∃ st1 sc, shedScaleSkin.shedRun st = some st1
    ∧ st1.scales[st.scales.length + i]? = some sc
    ∧ sc.location - shedScaleSkin.centerMedian (shedScaleSkin.prismVerts f.verts
          (Vec3.normalize (shedScaleSkin.centerMedian f.verts - st.source.location)))
        = shedScaleSkin.DISPLACEMENT_DISTANCE •
            Vec3.normalize (shedScaleSkin.centerMedian f.verts - st.source.location)
    ∧ Vec3.vnorm (sc.location -
          shedScaleSkin.centerMedian (shedScaleSkin.prismVerts f.verts
            (Vec3.normalize (shedScaleSkin.centerMedian f.verts - st.source.location))))
        = shedScaleSkin.DISPLACEMENT_DISTANCE
    ∧ (∃ t : ℝ, 0 < t ∧ sc.location - st.source.location
          = t • (shedScaleSkin.centerMedian f.verts - st.source.location))
    ∧ sc.location ≠ st.source.location := by
  obtain ⟨st1, hrunZ, hsrc, hmg, hsc⟩ := shedScaleSkin.shedRun_closed_form st hq huv hm
  have hidx : st1.scales[st.scales.length + i]?
      = some (shedScaleSkin.deselScale (shedScaleSkin.mkScale st.source.name
          st.source.location (st.materialsGlobal.getD f.material_index "") (0 + i) f)) := by
    rw [hsc, List.getElem?_append_right (by simp)]
    have harith : st.scales.length + i -
        (st.scales.map shedScaleSkin.deselScale).length = i := by
      simp
    rw [harith, shedScaleSkin.buildScales_getElem, hf]
    rfl
  have hw : shedScaleSkin.centerMedian f.verts - st.source.location ≠ (0 : Vec3 ℝ) :=
    fun h0 => hc ((Vec3.sub_eq_zero_iff _ _).mp h0)
  have hd : 0 < Vec3.vnorm (shedScaleSkin.centerMedian f.verts - st.source.location) :=
    Vec3.vnorm_pos _ hw
  have hvec : Vec3.normalize (shedScaleSkin.centerMedian f.verts - st.source.location)
      = (1 / Vec3.vnorm (shedScaleSkin.centerMedian f.verts - st.source.location)) •
          (shedScaleSkin.centerMedian f.verts - st.source.location) := by
    rw [Vec3.normalize, if_neg (ne_of_gt hd)]
  have hf4 : f.verts.length = 4 := by
    obtain ⟨hlt, hfe⟩ := List.getElem?_eq_some.mp hf
    have hmem : f ∈ shedScaleSkin.tFaces st := hfe ▸ List.getElem_mem hlt
    obtain ⟨g, hg, rfl⟩ := List.mem_map.mp hmem
    simpa using hq g hg
  have hne : f.verts ≠ [] := by
    intro h0
    rw [h0] at hf4
    simp at hf4
  have hloc : (shedScaleSkin.deselScale (shedScaleSkin.mkScale st.source.name
      st.source.location (st.materialsGlobal.getD f.material_index "") (0 + i) f)).location
      = shedScaleSkin.centerMedian (shedScaleSkin.prismVerts f.verts
          (Vec3.normalize (shedScaleSkin.centerMedian f.verts - st.source.location))) +
        shedScaleSkin.DISPLACEMENT_DISTANCE •
          Vec3.normalize (shedScaleSkin.centerMedian f.verts - st.source.location) := rfl
  have hA : (shedScaleSkin.deselScale (shedScaleSkin.mkScale st.source.name
      st.source.location (st.materialsGlobal.getD f.material_index "") (0 + i) f)).location -
        shedScaleSkin.centerMedian (shedScaleSkin.prismVerts f.verts
          (Vec3.normalize (shedScaleSkin.centerMedian f.verts - st.source.location)))
      = shedScaleSkin.DISPLACEMENT_DISTANCE •
          Vec3.normalize (shedScaleSkin.centerMedian f.verts - st.source.location) := by
    rw [hloc]
    ext <;> simp
  have hcm : shedScaleSkin.centerMedian (shedScaleSkin.prismVerts f.verts
      (Vec3.normalize (shedScaleSkin.centerMedian f.verts - st.source.location)))
      = shedScaleSkin.centerMedian f.verts + (1 / 2 : ℝ) •
          (shedScaleSkin.SCALE_THICKNESS •
            Vec3.normalize (shedScaleSkin.centerMedian f.verts - st.source.location)) := by
    rw [shedScaleSkin.prismVerts]
    exact shedScaleSkin.centerMedian_prism f.verts _ hne
  have hC : (shedScaleSkin.deselScale (shedScaleSkin.mkScale st.source.name
      st.source.location (st.materialsGlobal.getD f.material_index "") (0 + i) f)).location -
        st.source.location
      = (1 + (shedScaleSkin.SCALE_THICKNESS / 2 + shedScaleSkin.DISPLACEMENT_DISTANCE) /
            Vec3.vnorm (shedScaleSkin.centerMedian f.verts - st.source.location)) •
          (shedScaleSkin.centerMedian f.verts - st.source.location) := by
    rw [hloc, hcm, hvec]
    have hdne : Vec3.vnorm (shedScaleSkin.centerMedian f.verts - st.source.location) ≠ 0 :=
      ne_of_gt hd
    ext <;> simp <;> field_simp <;> ring
  have htpos : 0 < 1 + (shedScaleSkin.SCALE_THICKNESS / 2 +
      shedScaleSkin.DISPLACEMENT_DISTANCE) /
        Vec3.vnorm (shedScaleSkin.centerMedian f.verts - st.source.location) := by
    have hpos : 0 < (shedScaleSkin.SCALE_THICKNESS / 2 +
        shedScaleSkin.DISPLACEMENT_DISTANCE) /
          Vec3.vnorm (shedScaleSkin.centerMedian f.verts - st.source.location) :=
      div_pos (by norm_num [shedScaleSkin.SCALE_THICKNESS,
        shedScaleSkin.DISPLACEMENT_DISTANCE]) hd
    linarith
  refine ⟨st1, _, hrunZ, hidx, hA, ?_, ⟨_, htpos, hC⟩, ?_⟩
  · rw [hA, Vec3.vnorm_smul, Vec3.vnorm_normalize _ hw]
    norm_num [shedScaleSkin.DISPLACEMENT_DISTANCE]
  · intro heq
    have h0 : (shedScaleSkin.deselScale (shedScaleSkin.mkScale st.source.name
        st.source.location (st.materialsGlobal.getD f.material_index "") (0 + i) f)).location -
          st.source.location = 0 := by
      rw [heq]
      ext <;> simp
    rw [hC] at h0
    apply hw
    have hx := congrArg Vec3.x h0
    have hy := congrArg Vec3.y h0
    have hz := congrArg Vec3.z h0
    simp at hx hy hz
    have hts : (1 + (shedScaleSkin.SCALE_THICKNESS / 2 +
        shedScaleSkin.DISPLACEMENT_DISTANCE) /
          Vec3.vnorm (shedScaleSkin.centerMedian f.verts - st.source.location)) ≠ 0 :=
      ne_of_gt htpos
    ext <;> simp only [Vec3.sub_x, Vec3.sub_y, Vec3.sub_z, Vec3.zero_x, Vec3.zero_y,
      Vec3.zero_z]
    · exact hx.resolve_left hts
    · exact hy.resolve_left hts
    · exact hz.resolve_left hts

/-- Claim C4 counterexample: a quad face centered exactly at the source
object's origin yields a scale whose location coincides with that
origin — the displacement from the source origin is zero, not nonzero,
and the final translate moves the scale by the zero vector rather than
by the fixed displacement distance. -/
theorem shed_zero_displacement_counterexample :
    ∃ st1 sc, shedScaleSkin.shedRun shedScaleSkin.zeroDispState = some st1
    ∧ st1.scales[0]? = some sc
    ∧ sc.location = shedScaleSkin.zeroDispState.source.location := by
  have hq : ∀ f ∈ shedScaleSkin.zeroDispState.source.data.faces,
      f.verts.length = 4 := by
    intro f hf
    simp only [shedScaleSkin.zeroDispState, shedScaleSkin.mkSource,
      shedScaleSkin.originQuadMesh, List.mem_singleton] at hf
    subst hf
    rfl
  have huv : ∃ uvd, shedScaleSkin.zeroDispState.source.data.uvData = some uvd ∧
      4 * shedScaleSkin.zeroDispState.source.data.faces.length ≤ uvd.length :=
    ⟨[(0, 0), (0, 1), (1, 1), (1, 0)], rfl,
      by simp [shedScaleSkin.zeroDispState, shedScaleSkin.mkSource,
        shedScaleSkin.originQuadMesh]⟩
  have hm : ∀ f ∈ shedScaleSkin.zeroDispState.source.data.faces,
      f.material_index < shedScaleSkin.zeroDispState.materialsGlobal.length := by
    intro f hf
    simp only [shedScaleSkin.zeroDispState, shedScaleSkin.mkSource,
      shedScaleSkin.originQuadMesh, List.mem_singleton] at hf
    subst hf
    simp [shedScaleSkin.originQuad, shedScaleSkin.zeroDispState]
  obtain ⟨st1, hrunW, hsrc, hmg, hsc⟩ :=
    shedScaleSkin.shedRun_closed_form shedScaleSkin.zeroDispState hq huv hm
  have htf : shedScaleSkin.tFaces shedScaleSkin.zeroDispState
      = [shedScaleSkin.originQuad] := by
    simp [shedScaleSkin.tFaces, shedScaleSkin.zeroDispState, shedScaleSkin.mkSource,
      shedScaleSkin.originQuadMesh, shedScaleSkin.originQuad, idAffine_apply]
  have hcm : shedScaleSkin.centerMedian shedScaleSkin.originQuad.verts
      = (⟨0, 0, 0⟩ : Vec3 ℝ) := by
    ext <;>
      simp [shedScaleSkin.centerMedian, shedScaleSkin.vsum,
        shedScaleSkin.originQuad]
  have hvec : Vec3.normalize (shedScaleSkin.centerMedian
      shedScaleSkin.originQuad.verts -
        shedScaleSkin.zeroDispState.source.location) = 0 := by
    have hsub : shedScaleSkin.centerMedian shedScaleSkin.originQuad.verts -
        shedScaleSkin.zeroDispState.source.location = 0 := by
      rw [hcm]
      ext <;> simp [shedScaleSkin.zeroDispState, shedScaleSkin.mkSource]
    rw [hsub, Vec3.normalize_zero]
  refine ⟨st1, shedScaleSkin.deselScale (shedScaleSkin.mkScale
    shedScaleSkin.zeroDispState.source.name
    shedScaleSkin.zeroDispState.source.location
    (shedScaleSkin.zeroDispState.materialsGlobal.getD
      shedScaleSkin.originQuad.material_index "") 0
    shedScaleSkin.originQuad), hrunW, ?_, ?_⟩
  · rw [hsc, htf]
    simp only [shedScaleSkin.buildScales]
    rw [show shedScaleSkin.zeroDispState.scales = [] from rfl]
    rfl
  · have hloc : (shedScaleSkin.deselScale (shedScaleSkin.mkScale
        shedScaleSkin.zeroDispState.source.name
        shedScaleSkin.zeroDispState.source.location
        (shedScaleSkin.zeroDispState.materialsGlobal.getD
          shedScaleSkin.originQuad.material_index "") 0
        shedScaleSkin.originQuad)).location
        = shedScaleSkin.centerMedian (shedScaleSkin.prismVerts
            shedScaleSkin.originQuad.verts
            (Vec3.normalize (shedScaleSkin.centerMedian
              shedScaleSkin.originQuad.verts -
                shedScaleSkin.zeroDispState.source.location))) +
          shedScaleSkin.DISPLACEMENT_DISTANCE •
            Vec3.normalize (shedScaleSkin.centerMedian
              shedScaleSkin.originQuad.verts -
                shedScaleSkin.zeroDispState.source.location) := rfl
    rw [hloc, hvec]
    have hpr : shedScaleSkin.centerMedian (shedScaleSkin.prismVerts
        shedScaleSkin.originQuad.verts (0 : Vec3 ℝ)) = (⟨0, 0, 0⟩ : Vec3 ℝ) := by
      ext <;>
        simp [shedScaleSkin.centerMedian, shedScaleSkin.prismVerts,
          shedScaleSkin.vsum, shedScaleSkin.originQuad,
          shedScaleSkin.SCALE_THICKNESS]
    rw [hpr]
    ext <;> simp [shedScaleSkin.zeroDispState, shedScaleSkin.mkSource]

/-- Claim C4 witness: on the concrete one-quad source object (face
center `(1, 0, 0)`, origin `(0, 0, 0)`) the scale is translated by
exactly the displacement distance and ends displaced from the source
origin. -/
theorem shed_displacement_witness :
    ∃ st1 sc, shedScaleSkin.shedRun shedScaleSkin.oneQuadState = some st1
    ∧ st1.scales[shedScaleSkin.oneQuadState.scales.length + 0]? = some sc
    ∧ Vec3.vnorm (sc.location -
          shedScaleSkin.centerMedian (shedScaleSkin.prismVerts
            shedScaleSkin.quadFaceX.verts
            (Vec3.normalize (shedScaleSkin.centerMedian
              shedScaleSkin.quadFaceX.verts -
                shedScaleSkin.oneQuadState.source.location))))
        = shedScaleSkin.DISPLACEMENT_DISTANCE
    ∧ sc.location ≠ shedScaleSkin.oneQuadState.source.location := by
  have hq : ∀ f ∈ shedScaleSkin.oneQuadState.source.data.faces,
      f.verts.length = 4 := by
    intro f hf
    simp only [shedScaleSkin.oneQuadState, shedScaleSkin.mkSource,
      shedScaleSkin.oneQuadMesh, List.mem_singleton] at hf
    subst hf
    rfl
  have huv : ∃ uvd, shedScaleSkin.oneQuadState.source.data.uvData = some uvd ∧
      4 * shedScaleSkin.oneQuadState.source.data.faces.length ≤ uvd.length :=
    ⟨[(0, 0), (0, 1), (1, 1), (1, 0)], rfl,
      by simp [shedScaleSkin.oneQuadState, shedScaleSkin.mkSource,
        shedScaleSkin.oneQuadMesh]⟩
  have hm : ∀ f ∈ shedScaleSkin.oneQuadState.source.data.faces,
      f.material_index < shedScaleSkin.oneQuadState.materialsGlobal.length := by
    intro f hf
    simp only [shedScaleSkin.oneQuadState, shedScaleSkin.mkSource,
      shedScaleSkin.oneQuadMesh, List.mem_singleton] at hf
    subst hf
    simp [shedScaleSkin.quadFaceX, shedScaleSkin.oneQuadState]
  have htf : shedScaleSkin.tFaces shedScaleSkin.oneQuadState
      = [shedScaleSkin.quadFaceX] := by
    simp [shedScaleSkin.tFaces, shedScaleSkin.oneQuadState, shedScaleSkin.mkSource,
      shedScaleSkin.oneQuadMesh, shedScaleSkin.quadFaceX, idAffine_apply]
  have hf0 : (shedScaleSkin.tFaces shedScaleSkin.oneQuadState)[0]?
      = some shedScaleSkin.quadFaceX := by
    rw [htf]
    rfl
  have hc : shedScaleSkin.centerMedian shedScaleSkin.quadFaceX.verts
      ≠ shedScaleSkin.oneQuadState.source.location := by
    intro h
    have hx := congrArg Vec3.x h
    simp [shedScaleSkin.centerMedian, shedScaleSkin.vsum, shedScaleSkin.quadFaceX,
      shedScaleSkin.oneQuadState, shedScaleSkin.mkSource] at hx
    norm_num at hx
  obtain ⟨st1, sc, h1, h2, _, h4, _, h6⟩ := shed_displacement_outward
    shedScaleSkin.oneQuadState hq huv hm 0 shedScaleSkin.quadFaceX hf0 hc
  exact ⟨st1, sc, h1, h2, h4, h6⟩
